import Mathlib

/-!
Verification of the presence-aware study timer of the FlashCardLearning
repository (`src/app/components/StudyPresence.tsx` and its near-duplicate
copy `src/unnamed/part_000`).

The component's transient state is embedded as a Lean structure; the event
handlers (`handleToggle`, `handleReset`, `handleEnableCamera`), the periodic
presence sampler (`checkPresence`) and the per-second timer tick become pure
state-transition functions.  Browser-environment inputs that the code reads
(video readiness, face-detector availability and results, pixel data,
exceptions thrown by external calls) are collected in an explicit
environment record consumed by each sampling tick.

Correspondence of the `PresenceSample` classification with the source's
`isUserPresent : boolean | null`:
`some true` = Present, `some false` = Absent, `none` = Unknown.
-/

/-- User-facing message set by `handleEnableCamera` when
`navigator.mediaDevices.getUserMedia` is absent. -/
def apiMissingMsg : String := "Camera API not available in this browser."

/-- User-facing message set by `handleEnableCamera` when acquisition fails. -/
def cameraFailMsg : String := "Unable to access camera. Check permissions and try again."

/-- Label shown while the timer is effectively active. -/
def studyingLabel : String := "Studying"

/-- Label shown while the camera gate is pausing the timer. -/
def notStudyingPausedLabel : String := "Not studying – user not detected or camera covered"

/-- Plain label shown otherwise. -/
def notStudyingLabel : String := "Not studying"

/-- The component's React state plus the two refs, as one record.
`seconds`, `isRunning`, `cameraEnabled`, `isUserPresent`, `cameraError`,
`isOnline` are the `useState` hooks; `streamTracks` models
`streamRef.current` (a `MediaStream` handle carrying its track count);
`videoSrc` models whether `videoRef.current.srcObject` is attached;
`liveTracks` counts the hardware tracks not yet stopped. -/
structure StudyState where
  seconds : Nat
  isRunning : Bool
  isOnline : Bool
  cameraEnabled : Bool
  isUserPresent : Option Bool
  cameraError : Option String
  streamTracks : Option Nat
  liveTracks : Nat
  videoSrc : Bool
deriving DecidableEq, Repr

/-- The `useState` initial values of `StudyPresence`
(`useState(0)`, `useState(true)`, `useState(true)`, `useState(false)`,
`useState<boolean | null>(null)`, `useState<string | null>(null)`),
with no stream acquired and the video surface unattached. -/
def initialState : StudyState :=
  { seconds := 0
    isRunning := true
    isOnline := true
    cameraEnabled := false
    isUserPresent := none
    cameraError := none
    streamTracks := none
    liveTracks := 0
    videoSrc := false }

/-- `const isAutoPaused = cameraEnabled && isUserPresent !== true`. -/
def isAutoPaused (s : StudyState) : Bool :=
  s.cameraEnabled && !(decide (s.isUserPresent = some true))

/-- `const isTimerActive = isRunning && !isAutoPaused` — the spec's
`effectiveActive`. -/
def isTimerActive (s : StudyState) : Bool :=
  s.isRunning && !(isAutoPaused s)

/-- `studyStatusLabel`: `Studying` when `isTimerActive`, the paused label
when `isAutoPaused`, plain `Not studying` otherwise. -/
def studyStatusLabel (s : StudyState) : String :=
  if isTimerActive s then studyingLabel
  else if isAutoPaused s then notStudyingPausedLabel
  else notStudyingLabel

/-- Per-tick environment of one `checkPresence` run: everything the closure
reads from the browser.  `videoAndCtx` is whether `videoRef.current` and the
2d context are non-null; `detectorAvailable` is whether `window.FaceDetector`
exists; `detectThrows` is whether `detector.detect(video)` rejects on this
frame; `facesCount` is `faces.length` when it resolves; `readyState`,
`videoWidth`, `videoHeight` are the video element's readiness fields;
`analysisThrows` is whether `drawImage`/`getImageData` throws; `data` is the
flat RGBA byte array `imageData.data` of the downscaled frame. -/
structure FrameEnv where
  videoAndCtx : Bool
  detectorAvailable : Bool
  detectThrows : Bool
  facesCount : Nat
  readyState : Nat
  videoWidth : Nat
  videoHeight : Nat
  analysisThrows : Bool
  data : List Nat
deriving DecidableEq, Repr

/-- `video.readyState >= 2 && video.videoWidth > 0 && video.videoHeight > 0`. -/
def frameReady (e : FrameEnv) : Bool :=
  decide (2 ≤ e.readyState) && decide (0 < e.videoWidth) && decide (0 < e.videoHeight)

/-- The accumulation loop over the flat RGBA array: for each pixel take
`lum = (r + g + b) / 3` and accumulate `sum += lum; sumSq += lum * lum`.
Returns `(sum, sumSq)` as exact rationals. -/
def lumSums : List Nat → ℚ × ℚ
  | r :: g :: b :: _a :: rest =>
      let lum : ℚ := ((r : ℚ) + (g : ℚ) + (b : ℚ)) / 3
      let acc := lumSums rest
      (lum + acc.1, lum * lum + acc.2)
  | _ => (0, 0)

/-- The covered-camera test of `checkPresence`:
`pixels = data.length / 4`, `avg = sum / pixels`,
`variance = sumSq / pixels - avg * avg`,
`cameraCovered = (avg < 25) || (variance < 50)`. -/
def frameCovered (data : List Nat) : Bool :=
  let pixels : ℚ := ((data.length / 4 : Nat) : ℚ)
  let acc := lumSums data
  let avg := acc.1 / pixels
  let variance := acc.2 / pixels - avg * avg
  decide (avg < 25) || decide (variance < 50)

/-- The final classification of a completed sample
(`StudyPresence.tsx` lines 140–152):
`if cameraCovered then false else if detector then facesCount > 0 else true`. -/
def classifyPresence (cameraCovered : Bool) (detectorAvailable : Bool)
    (facesCount : Nat) : Bool :=
  if cameraCovered then false
  else if detectorAvailable then decide (0 < facesCount)
  else true

/-- One run of the async `checkPresence` closure, as a function from the
frame environment, the `cancelled` flag value at the moment state would be
applied, and the previous `isUserPresent` value, to the new `isUserPresent`
value.  Control flow follows the source exactly: early return when video or
context is null; `detector.detect` runs first and a rejection lands in the
`catch`, which sets `false` unless cancelled; the luminance analysis runs
only when the frame is ready, its own exception also landing in the `catch`;
when the frame is not ready the stored value is left untouched. -/
def checkPresence (e : FrameEnv) (cancelled : Bool) (prev : Option Bool) :
    Option Bool :=
  if !e.videoAndCtx then prev
  else if e.detectorAvailable && e.detectThrows then
    if cancelled then prev else some false
  else if frameReady e then
    if e.analysisThrows then
      if cancelled then prev else some false
    else if cancelled then prev
    else some (classifyPresence (frameCovered e.data) e.detectorAvailable e.facesCount)
  else prev

/-- `sampleThrows e` holds when this tick of `checkPresence` reaches the
`catch` block: either `detector.detect` rejects, or the frame is ready and
the canvas analysis throws. -/
def sampleThrows (e : FrameEnv) : Bool :=
  e.videoAndCtx &&
    ((e.detectorAvailable && e.detectThrows) ||
      (!(e.detectorAvailable && e.detectThrows) && frameReady e && e.analysisThrows))

/-- The periodic sampling loop: the interval fires `checkPresence` once per
tick, each tick reading its own environment, threading `isUserPresent`. -/
def sampleLoop (envs : List FrameEnv) (prev : Option Bool) : Option Bool :=
  match envs with
  | [] => prev
  | e :: rest => sampleLoop rest (checkPresence e false prev)

/-- Outcome of a `handleEnableCamera` call, decided by the browser:
the capture API may be absent, `getUserMedia` may resolve with a stream of
`tracks` live tracks, or it may reject. -/
inductive EnableOutcome where
  | apiMissing
  | success (tracks : Nat)
  | failure
deriving DecidableEq, Repr

/-- `handleEnableCamera`: on a missing capture API only the error string is
set; on success the stream handle is stored, its tracks are live,
`cameraEnabled` becomes true and the error clears; on rejection only the
error string is set. -/
def handleEnableCamera (s : StudyState) : EnableOutcome → StudyState
  | EnableOutcome.apiMissing => { s with cameraError := some apiMissingMsg }
  | EnableOutcome.success n =>
      { s with streamTracks := some n
               liveTracks := s.liveTracks + n
               cameraEnabled := true
               cameraError := none }
  | EnableOutcome.failure => { s with cameraError := some cameraFailMsg }

/-- `if (streamRef.current) { getTracks().forEach(t => t.stop()); streamRef.current = null }`. -/
def stopStreamTracks (s : StudyState) : StudyState :=
  match s.streamTracks with
  | some n => { s with liveTracks := s.liveTracks - n, streamTracks := none }
  | none => s

/-- The running → stopped branch of `handleToggle`: clear `isRunning`, stop
and drop the stream, detach the video surface, disable the camera, reset the
sample to Unknown. -/
def stopAndDisable (s : StudyState) : StudyState :=
  let s1 := stopStreamTracks { s with isRunning := false }
  { s1 with videoSrc := false, cameraEnabled := false, isUserPresent := none }

/-- `handleToggle`: from stopped, enable the camera first when it is off
(best effort) and set `isRunning`; from running, run the stop branch. -/
def handleToggle (s : StudyState) (o : EnableOutcome) : StudyState :=
  if s.isRunning = false then
    let s1 := if s.cameraEnabled = false then handleEnableCamera s o else s
    { s1 with isRunning := true }
  else
    stopAndDisable s

/-- `handleReset`: `setSeconds(0)` and nothing else. -/
def handleReset (s : StudyState) : StudyState :=
  { s with seconds := 0 }

/-- One firing of the 1000 ms interval: it exists only while `isTimerActive`,
and then increments `seconds` by one. -/
def timerTick (s : StudyState) : StudyState :=
  if isTimerActive s then { s with seconds := s.seconds + 1 } else s

/-- One firing of the 4000 ms sampling interval: the sampler effect is
mounted only while `cameraEnabled && isRunning`, and then applies
`checkPresence` (uncancelled) to the stored classification. -/
def sampleStep (s : StudyState) (e : FrameEnv) : StudyState :=
  if s.cameraEnabled && s.isRunning then
    { s with isUserPresent := checkPresence e false s.isUserPresent }
  else s

/-- Pressing the `Enable camera` button, which is rendered only while the
camera is disabled. -/
def pressEnableCamera (s : StudyState) (o : EnableOutcome) : StudyState :=
  if s.cameraEnabled then s else handleEnableCamera s o

/-- The unmount cleanup effect: stops every track of the current stream
(the ref itself is not nulled there). -/
def unmountCleanup (s : StudyState) : StudyState :=
  match s.streamTracks with
  | some n => { s with liveTracks := s.liveTracks - n }
  | none => s

/-- The online/offline listener: mirrors `navigator.onLine` into state. -/
def setOnline (s : StudyState) (b : Bool) : StudyState :=
  { s with isOnline := b }

/-- The operations that can mutate the component's state. -/
inductive Op where
  | tick
  | reset
  | toggle (o : EnableOutcome)
  | enableButton (o : EnableOutcome)
  | sample (e : FrameEnv)
  | connectivity (b : Bool)
  | unmount
deriving DecidableEq

/-- Dispatch one operation. -/
def step (op : Op) (s : StudyState) : StudyState :=
  match op with
  | Op.tick => timerTick s
  | Op.reset => handleReset s
  | Op.toggle o => handleToggle s o
  | Op.enableButton o => pressEnableCamera s o
  | Op.sample e => sampleStep s e
  | Op.connectivity b => setOnline s b
  | Op.unmount => unmountCleanup s

/-!  ## Claim theorems  -/

/-- C1: in every state, `effectiveActive` (`isTimerActive`) equals
`runRequested AND (camera disabled OR latest PresenceSample = Present)`;
when the camera is disabled it equals `runRequested`, and when the camera is
enabled and the latest classification is Absent or Unknown it is false even
when `runRequested` is true. -/
theorem effectiveActive_eq (s : StudyState) :
    isTimerActive s =
      (s.isRunning && (!s.cameraEnabled || decide (s.isUserPresent = some true))) ∧
    (s.cameraEnabled = false → isTimerActive s = s.isRunning) ∧
    (s.cameraEnabled = true → s.isUserPresent ≠ some true →
      isTimerActive s = false) := by
  rcases s with ⟨sec, run, onl, cam, pres, err, st, lt, vs⟩
  rcases pres with _ | (_ | _) <;> cases run <;> cases cam <;>
    simp [isTimerActive, isAutoPaused]

/-- Witness for C1: a concrete state with the camera enabled, run requested
and the sample still Unknown is not effectively active. -/
theorem effectiveActive_eq_witness :
    isTimerActive { initialState with cameraEnabled := true } = false :=
  (effectiveActive_eq { initialState with cameraEnabled := true }).2.2 rfl
    (by decide)

/-- C10: on initialization `isRunning` is true while `cameraEnabled` is
false, `seconds` is 0 and the presence sample is Unknown, so the timer is
effectively active immediately and the first tick advances it to 1. -/
theorem initialState_runs_unconstrained :
    initialState.isRunning = true ∧ initialState.cameraEnabled = false ∧
    initialState.seconds = 0 ∧ initialState.isUserPresent = none ∧
    initialState.cameraError = none ∧
    isTimerActive initialState = true ∧
    (timerTick initialState).seconds = 1 := by decide

/-- A state with the timer stopped but the camera enabled and no sample yet:
reached by toggling the running timer off and then pressing the
`Enable camera` button successfully. -/
def stoppedCameraOnState : StudyState :=
  { initialState with isRunning := false, cameraEnabled := true }

/-- Counterexample to C4: with the camera enabled but run NOT requested (and
no face seen), the label is `Not studying – user not detected or camera
covered`, not the plain `Not studying` the claim requires there; the state
is reachable from the initial state by stop-toggle then enable-camera. -/
theorem studyStatusLabel_counterexample :
    stoppedCameraOnState.cameraEnabled = true ∧
    stoppedCameraOnState.isRunning = false ∧
    studyStatusLabel stoppedCameraOnState = notStudyingPausedLabel ∧
    studyStatusLabel stoppedCameraOnState ≠ notStudyingLabel ∧
    step (Op.enableButton (EnableOutcome.success 1))
        (step (Op.toggle EnableOutcome.failure) initialState) =
      { stoppedCameraOnState with streamTracks := some 1, liveTracks := 1 } := by
  refine ⟨rfl, rfl, rfl, by decide, by decide⟩

/-- C4 as amended: `Studying` iff effectively active; the paused label iff
the camera is enabled and the latest sample is not Present — regardless of
whether run is requested; the plain `Not studying` iff run is not requested
and the camera gate is not engaged. -/
theorem studyStatusLabel_characterization (s : StudyState) :
    (studyStatusLabel s = studyingLabel ↔
      (s.isRunning = true ∧ (s.cameraEnabled = false ∨ s.isUserPresent = some true))) ∧
    (studyStatusLabel s = notStudyingPausedLabel ↔
      (s.cameraEnabled = true ∧ s.isUserPresent ≠ some true)) ∧
    (studyStatusLabel s = notStudyingLabel ↔
      (s.isRunning = false ∧ (s.cameraEnabled = false ∨ s.isUserPresent = some true))) := by
  rcases s with ⟨sec, run, onl, cam, pres, err, st, lt, vs⟩
  rcases pres with _ | (_ | _) <;> cases run <;> cases cam <;>
    simp [studyStatusLabel, isTimerActive, isAutoPaused,
      studyingLabel, notStudyingPausedLabel, notStudyingLabel]

/-- One RGBA pixel of the downscaled analysis frame. -/
structure Pixel where
  r : Nat
  g : Nat
  b : Nat
  a : Nat
deriving DecidableEq, Repr

/-- Spec-side luminance of a pixel: the unweighted average of its three
color channels. -/
def pixelLum (p : Pixel) : ℚ := ((p.r : ℚ) + (p.g : ℚ) + (p.b : ℚ)) / 3

/-- Flatten a pixel list into the flat RGBA byte stream `imageData.data`. -/
def toData : List Pixel → List Nat
  | [] => []
  | p :: ps => p.r :: p.g :: p.b :: p.a :: toData ps

/-- Spec-side mean luminance: sum of the luminances over the pixel count. -/
def meanLum (ps : List Pixel) : ℚ := ((ps.map pixelLum).sum) / (ps.length : ℚ)

/-- Spec-side luminance variance: mean of the squared luminances minus the
squared mean. -/
def varLum (ps : List Pixel) : ℚ :=
  ((ps.map (fun p => pixelLum p * pixelLum p)).sum) / (ps.length : ℚ) -
    meanLum ps * meanLum ps

theorem toData_length (ps : List Pixel) : (toData ps).length = 4 * ps.length := by
  induction ps with
  | nil => rfl
  | cons p ps ih => simp [toData, ih]; omega

theorem lumSums_toData (ps : List Pixel) :
    lumSums (toData ps) =
      ((ps.map pixelLum).sum, (ps.map (fun p => pixelLum p * pixelLum p)).sum) := by
  induction ps with
  | nil => rfl
  | cons p ps ih => simp [toData, lumSums, ih, pixelLum]

theorem frameCovered_toData (ps : List Pixel) :
    frameCovered (toData ps) =
      (decide (meanLum ps < 25) || decide (varLum ps < 50)) := by
  simp only [frameCovered, lumSums_toData, toData_length, meanLum, varLum]
  rw [Nat.mul_div_cancel_left _ (by norm_num)]

/-- C3: with luminance the unweighted channel average, mean the luminance
sum over the pixel count and variance the mean square minus the squared
mean, the code's covered test on the flattened frame holds iff
`mean < 25 ∨ variance < 50`; hence a frame of mean luminance 0 is covered
and a frame of mean 128 with variance at least 50 is not. -/
theorem frameCovered_iff (ps : List Pixel) (_h : ps ≠ []) :
    (frameCovered (toData ps) = true ↔ (meanLum ps < 25 ∨ varLum ps < 50)) ∧
    (meanLum ps = 0 → frameCovered (toData ps) = true) ∧
    (meanLum ps = 128 → 50 ≤ varLum ps → frameCovered (toData ps) = false) := by
  refine ⟨?_, ?_, ?_⟩
  · rw [frameCovered_toData]
    simp
  · intro h0
    rw [frameCovered_toData]
    simp [h0]
  · intro h128 hvar
    rw [frameCovered_toData]
    simp [h128, not_lt.mpr hvar]
    norm_num

/-- A small all-black frame. -/
def blackFrame : List Pixel := List.replicate 3 ⟨0, 0, 0, 255⟩

/-- A two-pixel frame of luminances 1 and 255: mean 128, variance 16129. -/
def contrastFrame : List Pixel := [⟨1, 1, 1, 255⟩, ⟨255, 255, 255, 255⟩]

/-- Witness for C3: the all-black frame is covered; the mean-128,
high-variance frame is not. -/
theorem frameCovered_iff_witness :
    frameCovered (toData blackFrame) = true ∧
    frameCovered (toData contrastFrame) = false :=
  ⟨(frameCovered_iff blackFrame (by decide)).2.1
      (by simp [meanLum, blackFrame, pixelLum]),
   (frameCovered_iff contrastFrame (by decide)).2.2
      (by simp [meanLum, contrastFrame, pixelLum]; norm_num)
      (by simp [varLum, meanLum, contrastFrame, pixelLum]; norm_num)⟩

/-- C2: a completed sample (video and context present, no exception, frame
ready) is classified by the ordered decision table: covered ⇒ Absent;
else with a detector ⇒ Present iff the face count is positive;
else ⇒ Present. -/
theorem completedSample_classification (e : FrameEnv) (prev : Option Bool)
    (hv : e.videoAndCtx = true)
    (hd : (e.detectorAvailable && e.detectThrows) = false)
    (hr : frameReady e = true)
    (ha : e.analysisThrows = false) :
    checkPresence e false prev =
      some (if frameCovered e.data then false
            else if e.detectorAvailable then decide (0 < e.facesCount) else true) ∧
    (frameCovered e.data = true → checkPresence e false prev = some false) ∧
    (frameCovered e.data = false → e.detectorAvailable = true →
      checkPresence e false prev = some (decide (0 < e.facesCount))) ∧
    (frameCovered e.data = false → e.detectorAvailable = false →
      checkPresence e false prev = some true) := by
  refine ⟨?_, ?_, ?_, ?_⟩
  · simp [checkPresence, hv, hd, hr, ha, classifyPresence]
  · intro hc
    simp [checkPresence, hv, hd, hr, ha, classifyPresence, hc]
  · intro hc hdet
    have hdt : e.detectThrows = false := by simpa [hdet] using hd
    simp [checkPresence, hv, hr, ha, classifyPresence, hc, hdet, hdt]
  · intro hc hdet
    simp [checkPresence, hv, hd, hr, ha, classifyPresence, hc, hdet]

/-- A ready, bright, varied frame with a detector that sees one face. -/
def brightEnv : FrameEnv :=
  { videoAndCtx := true
    detectorAvailable := true
    detectThrows := false
    facesCount := 1
    readyState := 4
    videoWidth := 160
    videoHeight := 90
    analysisThrows := false
    data := [0, 0, 0, 255, 255, 255, 255, 255] }

/-- Witness for C2: on the bright two-pixel frame with one detected face the
completed sample is classified Present. -/
theorem completedSample_classification_witness :
    frameCovered brightEnv.data = false ∧
    checkPresence brightEnv false none = some true := by
  have hcov : frameCovered brightEnv.data = false := by
    simp [frameCovered, brightEnv, lumSums]
    norm_num
  have h := (completedSample_classification brightEnv none rfl rfl rfl rfl).2.2.1
    hcov rfl
  exact ⟨hcov, by simpa using h⟩

/-- C5 as amended: on a tick whose frame is not yet decodable the luminance
analysis is skipped and the stored classification survives unchanged —
provided the face-detector call does not itself throw. -/
theorem notReadyFrame_keepsClassification (e : FrameEnv) (prev : Option Bool)
    (hr : frameReady e = false)
    (hnothrow : (e.detectorAvailable && e.detectThrows) = false) :
    checkPresence e false prev = prev := by
  cases hv : e.videoAndCtx with
  | false => simp [checkPresence, hv]
  | true => simp [checkPresence, hv, hnothrow, hr]

/-- A not-yet-ready frame with a face detector whose `detect` call rejects
against it, and a previously Present classification. -/
def notReadyThrowEnv : FrameEnv :=
  { videoAndCtx := true
    detectorAvailable := true
    detectThrows := true
    facesCount := 0
    readyState := 0
    videoWidth := 0
    videoHeight := 0
    analysisThrows := false
    data := [] }

/-- Counterexample to C5: the detector is invoked before the readiness
check, so when `detect` rejects against the not-yet-ready frame the `catch`
block overwrites the stored Present classification with Absent. -/
theorem notReadyFrame_counterexample :
    frameReady notReadyThrowEnv = false ∧
    notReadyThrowEnv.detectorAvailable = true ∧
    checkPresence notReadyThrowEnv false (some true) = some false := by decide

/-- A not-yet-ready frame with no face detector. -/
def notReadyQuietEnv : FrameEnv :=
  { videoAndCtx := true
    detectorAvailable := false
    detectThrows := false
    facesCount := 0
    readyState := 1
    videoWidth := 160
    videoHeight := 90
    analysisThrows := false
    data := [] }

/-- Witness for the amended C5: without a detector exception, a not-ready
tick leaves a Present classification untouched. -/
theorem notReadyFrame_keepsClassification_witness :
    checkPresence notReadyQuietEnv false (some true) = some true :=
  notReadyFrame_keepsClassification notReadyQuietEnv (some true) (by decide) (by decide)

/-- C8: when a sample computation throws (face-detector failure or
frame/analysis error), that cycle is classified Absent, the exception stops
at the sampler, and the loop keeps processing every subsequent tick from the
Absent value. -/
theorem sampleFailure_absent_and_loop_continues (e : FrameEnv)
    (prev : Option Bool) (h : sampleThrows e = true) :
    checkPresence e false prev = some false ∧
    (∀ rest : List FrameEnv,
      sampleLoop (e :: rest) prev = sampleLoop rest (some false)) := by
  have hv : e.videoAndCtx = true := (Bool.and_eq_true _ _ |>.mp h).1
  have h2 := (Bool.and_eq_true _ _ |>.mp h).2
  have hmain : checkPresence e false prev = some false := by
    rcases Bool.or_eq_true _ _ |>.mp h2 with hd | hrest
    · simp [checkPresence, hv, hd]
    · obtain ⟨hAB, ha⟩ := Bool.and_eq_true _ _ |>.mp hrest
      obtain ⟨hnd, hr⟩ := Bool.and_eq_true _ _ |>.mp hAB
      have hd2 : (e.detectorAvailable && e.detectThrows) = false := by
        cases hb : (e.detectorAvailable && e.detectThrows) with
        | false => rfl
        | true => rw [hb] at hnd; exact absurd hnd (by decide)
      simp [checkPresence, hv, hd2, hr, ha]
  exact ⟨hmain, fun rest => by simp [sampleLoop, hmain]⟩

/-- A ready frame whose canvas analysis throws. -/
def analysisThrowEnv : FrameEnv :=
  { videoAndCtx := true
    detectorAvailable := false
    detectThrows := false
    facesCount := 0
    readyState := 4
    videoWidth := 160
    videoHeight := 90
    analysisThrows := true
    data := [] }

/-- Witness for C8: a throwing tick classifies Absent and the loop goes on. -/
theorem sampleFailure_witness :
    sampleThrows analysisThrowEnv = true ∧
    checkPresence analysisThrowEnv false (some true) = some false ∧
    sampleLoop [analysisThrowEnv] (some true) = some false := by
  refine ⟨by decide,
    (sampleFailure_absent_and_loop_continues analysisThrowEnv (some true)
      (by decide)).1, ?_⟩
  have h := (sampleFailure_absent_and_loop_continues analysisThrowEnv
    (some true) (by decide)).2 []
  simpa [sampleLoop] using h

/-- C9: once the cancellation flag is set, no presence update is applied on
the success path nor the failure path of a still-in-flight sample; and a
teardown (unmount cleanup, or the stop branch) stops every live hardware
track when the track count matches the stream handle. -/
theorem cancelledSample_discarded_and_teardown_releases :
    (∀ (e : FrameEnv) (prev : Option Bool), checkPresence e true prev = prev) ∧
    (∀ s : StudyState, s.liveTracks = s.streamTracks.getD 0 →
      (unmountCleanup s).liveTracks = 0 ∧ (stopAndDisable s).liveTracks = 0) := by
  constructor
  · intro e prev
    cases hv : e.videoAndCtx with
    | false => simp [checkPresence, hv]
    | true =>
      by_cases hd : (e.detectorAvailable && e.detectThrows) = true <;>
        by_cases hr : frameReady e = true <;>
          by_cases ha : e.analysisThrows = true <;>
            simp_all [checkPresence]
  · intro s hinv
    rcases hst : s.streamTracks with _ | n <;>
      simp_all [unmountCleanup, stopAndDisable, stopStreamTracks]

/-- A state with the camera on, one live track and a sample in flight. -/
def inFlightState : StudyState :=
  { seconds := 7
    isRunning := true
    isOnline := true
    cameraEnabled := true
    isUserPresent := some true
    cameraError := none
    streamTracks := some 1
    liveTracks := 1
    videoSrc := true }

/-- Witness for C9: a cancelled throwing sample leaves Present stored, and
unmounting the in-flight state leaves zero live tracks. -/
theorem cancelledSample_discarded_witness :
    checkPresence analysisThrowEnv true (some true) = some true ∧
    (unmountCleanup inFlightState).liveTracks = 0 :=
  ⟨cancelledSample_discarded_and_teardown_releases.1 analysisThrowEnv (some true),
   (cancelledSample_discarded_and_teardown_releases.2 inFlightState rfl).1⟩

/-- C6: `seconds` never decreases under any operation other than reset; a
tick while effectively active adds exactly 1; reset zeroes `seconds` and
leaves every other field (run state, camera state, classification, error
string, stream, tracks, surface) unchanged. -/
theorem seconds_monotone_except_reset (s : StudyState) (op : Op)
    (h : op ≠ Op.reset) :
    s.seconds ≤ (step op s).seconds ∧
    (isTimerActive s = true → (step Op.tick s).seconds = s.seconds + 1) ∧
    (step Op.reset s).seconds = 0 ∧
    (step Op.reset s).isRunning = s.isRunning ∧
    (step Op.reset s).isOnline = s.isOnline ∧
    (step Op.reset s).cameraEnabled = s.cameraEnabled ∧
    (step Op.reset s).isUserPresent = s.isUserPresent ∧
    (step Op.reset s).cameraError = s.cameraError ∧
    (step Op.reset s).streamTracks = s.streamTracks ∧
    (step Op.reset s).liveTracks = s.liveTracks ∧
    (step Op.reset s).videoSrc = s.videoSrc := by
  refine ⟨?_, ?_, rfl, rfl, rfl, rfl, rfl, rfl, rfl, rfl, rfl⟩
  · cases op with
    | tick =>
      by_cases ht : isTimerActive s = true <;> simp [step, timerTick, ht]
    | reset => exact absurd rfl h
    | toggle o =>
      cases o <;> by_cases hr : s.isRunning = false <;>
        rcases hst : s.streamTracks with _ | n <;>
          by_cases hc : s.cameraEnabled = false <;>
            simp [step, handleToggle, handleEnableCamera, stopAndDisable,
              stopStreamTracks, hr, hc, hst]
    | enableButton o =>
      cases o <;> by_cases hc : s.cameraEnabled = true <;>
        simp [step, pressEnableCamera, handleEnableCamera, hc]
    | sample e =>
      by_cases hcr : (s.cameraEnabled && s.isRunning) = true <;>
        simp [step, sampleStep, hcr]
    | connectivity b => simp [step, setOnline]
    | unmount =>
      rcases hst : s.streamTracks with _ | n <;> simp [step, unmountCleanup, hst]
  · intro ht
    simp [step, timerTick, ht]

/-- Witness for C6: from the initial state a tick is not a reset, preserves
monotonicity and adds exactly one second. -/
theorem seconds_monotone_except_reset_witness :
    initialState.seconds ≤ (step Op.tick initialState).seconds ∧
    (step Op.tick initialState).seconds = initialState.seconds + 1 :=
  ⟨(seconds_monotone_except_reset initialState Op.tick (by decide)).1,
   (seconds_monotone_except_reset initialState Op.tick (by decide)).2.1 rfl⟩

/-- C7: toggling while running clears the run request, stops every track of
the active stream and drops its handle, detaches the video surface, disables
the camera and resets the sample to Unknown; and running the disable/stop
branch once more, when no stream exists, changes nothing. -/
theorem toggleStop_stops_everything (s : StudyState) (o : EnableOutcome)
    (hrun : s.isRunning = true)
    (hinv : s.liveTracks = s.streamTracks.getD 0) :
    (handleToggle s o).isRunning = false ∧
    (handleToggle s o).streamTracks = none ∧
    (handleToggle s o).liveTracks = 0 ∧
    (handleToggle s o).videoSrc = false ∧
    (handleToggle s o).cameraEnabled = false ∧
    (handleToggle s o).isUserPresent = none ∧
    (handleToggle s o).seconds = s.seconds ∧
    stopAndDisable (handleToggle s o) = handleToggle s o := by
  have hr : ¬(s.isRunning = false) := by simp [hrun]
  rcases hst : s.streamTracks with _ | n <;>
    simp_all [handleToggle, stopAndDisable, stopStreamTracks]

/-- A running state holding a two-track stream. -/
def runningWithStreamState : StudyState :=
  { seconds := 5
    isRunning := true
    isOnline := true
    cameraEnabled := true
    isUserPresent := some true
    cameraError := none
    streamTracks := some 2
    liveTracks := 2
    videoSrc := true }

/-- Witness for C7: toggling the concrete running state releases both
tracks, clears the sample and stops the run. -/
theorem toggleStop_stops_everything_witness :
    (handleToggle runningWithStreamState EnableOutcome.failure).liveTracks = 0 ∧
    (handleToggle runningWithStreamState EnableOutcome.failure).isUserPresent = none ∧
    (handleToggle runningWithStreamState EnableOutcome.failure).isRunning = false :=
  ⟨(toggleStop_stops_everything runningWithStreamState EnableOutcome.failure
      rfl rfl).2.2.1,
   (toggleStop_stops_everything runningWithStreamState EnableOutcome.failure
      rfl rfl).2.2.2.2.2.1,
   (toggleStop_stops_everything runningWithStreamState EnableOutcome.failure
      rfl rfl).1⟩
